import Mathlib

/-!
Verification of the `bamboo-permissions` reconciler
(`bamboo_access_reconciler.py`, `main.py`).

The development shallowly embeds the permission-handling pipeline:

* a pandas dataframe holding the permission records of one domain is modelled as a
  `List` of rows (a structure whose fields are the columns of the frame);
* `DataFrame.merge(other, indicator=True, how=outer)` with no `on`
  argument joins on all common columns; for two frames of the same shape
  and duplicate-free rows this is `merge_outer_indicator` below;
* Python exception propagation is modelled with `Except`;
* calls issued to the Bamboo client are collected as a trace
  (`List BambooCall`).
-/

namespace BambooReconciler

/-- The `_merge` indicator column produced by
`merge(..., indicator=True, how=outer)`: which side(s) of the join
contributed a row. -/
inductive MergeTag where
  | left_only
  | right_only
  | both
deriving DecidableEq, BEq

/-- Model of `current_df.merge(desired_df, indicator=True, how=outer)`
(lines 113-118 of `bamboo_access_reconciler.py`) for two frames of the same
shape with duplicate-free rows: the join key is the full row (all columns
are common), matched rows of `current` come first tagged `both`, unmatched
rows of `current` are tagged `left_only`, and unmatched rows of `desired`
follow tagged `right_only`. -/
def merge_outer_indicator {α : Type} [DecidableEq α] (current desired : List α) :
    List (α × MergeTag) :=
  current.map (fun r => (r, if r ∈ desired then MergeTag.both else MergeTag.left_only))
    ++ (desired.filter (fun r => decide (r ∉ current))).map (fun r => (r, MergeTag.right_only))

/-- The ADDED selection `diff_df[diff_df["_merge"] == "right_only"]`
(lines 184-189): rows of the outer merge contributed by the desired side
only. -/
def added_of {α : Type} [DecidableEq α] (current desired : List α) : List α :=
  ((merge_outer_indicator current desired).filter
    (fun p => decide (p.2 = MergeTag.right_only))).map Prod.fst

/-- The REMOVED selection `diff_df[diff_df["_merge"] == "left_only"]`
(lines 190-195): rows of the outer merge contributed by the current side
only. -/
def removed_of {α : Type} [DecidableEq α] (current desired : List α) : List α :=
  ((merge_outer_indicator current desired).filter
    (fun p => decide (p.2 = MergeTag.left_only))).map Prod.fst

/-- The UNCHANGED rows of the outer merge: contributed by both sides. -/
def unchanged_of {α : Type} [DecidableEq α] (current desired : List α) : List α :=
  ((merge_outer_indicator current desired).filter
    (fun p => decide (p.2 = MergeTag.both))).map Prod.fst

theorem added_of_eq_filter {α : Type} [DecidableEq α] (current desired : List α) :
    added_of current desired = desired.filter (fun r => decide (r ∉ current)) := by
  simp only [added_of, merge_outer_indicator, List.filter_append, List.filter_map,
    List.map_append, List.map_map]
  have h1 : (List.filter ((fun p => decide (p.2 = MergeTag.right_only)) ∘
      (fun r => (r, if r ∈ desired then MergeTag.both else MergeTag.left_only))) current) = [] := by
    apply List.filter_eq_nil_iff.mpr
    intro a _
    by_cases h : a ∈ desired <;> simp [h]
  have h2 : (List.filter ((fun p => decide (p.2 = MergeTag.right_only)) ∘
      (fun r => (r, MergeTag.right_only))) (desired.filter (fun r => decide (r ∉ current)))) =
      desired.filter (fun r => decide (r ∉ current)) := by
    apply List.filter_eq_self.mpr
    intro a _
    simp
  rw [h1, h2]
  simp [Function.comp_def]

theorem removed_of_eq_filter {α : Type} [DecidableEq α] (current desired : List α) :
    removed_of current desired = current.filter (fun r => decide (r ∉ desired)) := by
  simp only [removed_of, merge_outer_indicator, List.filter_append, List.filter_map,
    List.map_append, List.map_map]
  have h1 : (List.filter ((fun p => decide (p.2 = MergeTag.left_only)) ∘
      (fun r => (r, if r ∈ desired then MergeTag.both else MergeTag.left_only))) current) =
      current.filter (fun r => decide (r ∉ desired)) := by
    congr 1
    funext a
    by_cases h : a ∈ desired <;> simp [h]
  have h2 : (List.filter ((fun p => decide (p.2 = MergeTag.left_only)) ∘
      (fun r => (r, MergeTag.right_only))) (desired.filter (fun r => decide (r ∉ current)))) = [] := by
    apply List.filter_eq_nil_iff.mpr
    intro a _
    simp
  rw [h1, h2]
  simp [Function.comp_def]

theorem unchanged_of_eq_filter {α : Type} [DecidableEq α] (current desired : List α) :
    unchanged_of current desired = current.filter (fun r => decide (r ∈ desired)) := by
  simp only [unchanged_of, merge_outer_indicator, List.filter_append, List.filter_map,
    List.map_append, List.map_map]
  have h1 : (List.filter ((fun p => decide (p.2 = MergeTag.both)) ∘
      (fun r => (r, if r ∈ desired then MergeTag.both else MergeTag.left_only))) current) =
      current.filter (fun r => decide (r ∈ desired)) := by
    congr 1
    funext a
    by_cases h : a ∈ desired <;> simp [h]
  have h2 : (List.filter ((fun p => decide (p.2 = MergeTag.both)) ∘
      (fun r => (r, MergeTag.right_only))) (desired.filter (fun r => decide (r ∉ current)))) = [] := by
    apply List.filter_eq_nil_iff.mpr
    intro a _
    simp
  rw [h1, h2]
  simp [Function.comp_def]

theorem mem_added_of {α : Type} [DecidableEq α] (current desired : List α) (r : α) :
    r ∈ added_of current desired ↔ r ∈ desired ∧ r ∉ current := by
  rw [added_of_eq_filter]
  simp

theorem mem_removed_of {α : Type} [DecidableEq α] (current desired : List α) (r : α) :
    r ∈ removed_of current desired ↔ r ∈ current ∧ r ∉ desired := by
  rw [removed_of_eq_filter]
  simp

theorem mem_unchanged_of {α : Type} [DecidableEq α] (current desired : List α) (r : α) :
    r ∈ unchanged_of current desired ↔ r ∈ current ∧ r ∈ desired := by
  rw [unchanged_of_eq_filter]
  simp

end BambooReconciler

/-- C1: for duplicate-free current and desired record sets of one domain, the
outer merge with indicator classifies records so that the added set equals
desired minus current, the removed set equals current minus desired, and the
unchanged set equals the intersection of current and desired (as sets of
records). -/
theorem C1_diff_classifies_as_set_ops {α : Type} [DecidableEq α]
    (current desired : List α) (_hc : current.Nodup) (_hd : desired.Nodup) :
    (BambooReconciler.added_of current desired).toFinset =
      desired.toFinset \ current.toFinset ∧
    (BambooReconciler.removed_of current desired).toFinset =
      current.toFinset \ desired.toFinset ∧
    (BambooReconciler.unchanged_of current desired).toFinset =
      current.toFinset ∩ desired.toFinset := by
  refine ⟨?_, ?_, ?_⟩ <;> ext r
  · rw [List.mem_toFinset, BambooReconciler.mem_added_of]
    simp [Finset.mem_sdiff]
  · rw [List.mem_toFinset, BambooReconciler.mem_removed_of]
    simp [Finset.mem_sdiff]
  · rw [List.mem_toFinset, BambooReconciler.mem_unchanged_of]
    simp [Finset.mem_inter]

/-- Witness for C1 at a concrete pair of duplicate-free record sets. -/
theorem C1_diff_classifies_as_set_ops_witness :
    ([1, 2] : List Nat).Nodup ∧ ([2, 3] : List Nat).Nodup ∧
    ((BambooReconciler.added_of [1, 2] [2, 3]).toFinset =
        ([2, 3] : List Nat).toFinset \ ([1, 2] : List Nat).toFinset ∧
      (BambooReconciler.removed_of [1, 2] [2, 3]).toFinset =
        ([1, 2] : List Nat).toFinset \ ([2, 3] : List Nat).toFinset ∧
      (BambooReconciler.unchanged_of [1, 2] [2, 3]).toFinset =
        ([1, 2] : List Nat).toFinset ∩ ([2, 3] : List Nat).toFinset) :=
  ⟨by decide, by decide, C1_diff_classifies_as_set_ops [1, 2] [2, 3] (by decide) (by decide)⟩

namespace BambooReconciler

/-- A grant or revoke call of one domain, carrying the record it targets.
For ADDED rows `update_permissions` issues the add (grant) client call, for
REMOVED rows the remove (revoke) client call. -/
inductive DomainCall (α : Type) where
  | grant (r : α)
  | revoke (r : α)
deriving DecidableEq

/-- The calls `update_permissions` issues for one domain: the add calls for
the ADDED rows (lines 208-219), followed by the remove calls for the
REMOVED rows (lines 220-231). -/
def update_permissions_domain_calls {α : Type} [DecidableEq α]
    (current desired : List α) : List (DomainCall α) :=
  (added_of current desired).map DomainCall.grant
    ++ (removed_of current desired).map DomainCall.revoke

/-- Effect of one successful client call on the current permission set of a
domain: a grant makes the record present, a revoke makes it absent. -/
def apply_call {α : Type} [DecidableEq α] (state : List α) : DomainCall α → List α
  | DomainCall.grant r => if r ∈ state then state else state ++ [r]
  | DomainCall.revoke r => state.filter (fun x => decide (x ≠ r))

/-- Effect of a sequence of successful client calls, applied in order. -/
def apply_calls {α : Type} [DecidableEq α] (state : List α) (cs : List (DomainCall α)) :
    List α :=
  cs.foldl apply_call state

theorem mem_apply_grants {α : Type} [DecidableEq α] (l : List α) (s : List α) (x : α) :
    x ∈ apply_calls s (l.map DomainCall.grant) ↔ x ∈ s ∨ x ∈ l := by
  induction l generalizing s with
  | nil => simp [apply_calls]
  | cons a t ih =>
    simp only [List.map_cons, apply_calls, List.foldl_cons]
    rw [show (List.foldl apply_call (apply_call s (DomainCall.grant a))
      (t.map DomainCall.grant)) = apply_calls (apply_call s (DomainCall.grant a))
      (t.map DomainCall.grant) from rfl]
    rw [ih]
    simp only [apply_call]
    by_cases h : a ∈ s
    · simp only [if_pos h, List.mem_cons]
      constructor
      · rintro (hx | hx)
        · exact Or.inl hx
        · exact Or.inr (Or.inr hx)
      · rintro (hx | rfl | hx)
        · exact Or.inl hx
        · exact Or.inl h
        · exact Or.inr hx
    · simp only [if_neg h, List.mem_append, List.mem_singleton, List.mem_cons]
      tauto
  
theorem mem_apply_revokes {α : Type} [DecidableEq α] (l : List α) (s : List α) (x : α) :
    x ∈ apply_calls s (l.map DomainCall.revoke) ↔ x ∈ s ∧ x ∉ l := by
  induction l generalizing s with
  | nil => simp [apply_calls]
  | cons a t ih =>
    simp only [List.map_cons, apply_calls, List.foldl_cons]
    rw [show (List.foldl apply_call (apply_call s (DomainCall.revoke a))
      (t.map DomainCall.revoke)) = apply_calls (apply_call s (DomainCall.revoke a))
      (t.map DomainCall.revoke) from rfl]
    rw [ih]
    simp only [apply_call, List.mem_filter, List.mem_cons, decide_eq_true_eq]
    constructor
    · rintro ⟨⟨hx, hne⟩, hnt⟩
      exact ⟨hx, by rintro (rfl | hmem) <;> [exact hne rfl; exact hnt hmem]⟩
    · rintro ⟨hx, hn⟩
      exact ⟨⟨hx, fun hEq => hn (Or.inl hEq)⟩, fun hmem => hn (Or.inr hmem)⟩

/-- Membership in the state obtained by replaying the calls of one
reconciliation pass: after all grants for ADDED and all revokes for REMOVED
succeed, a record is present exactly when it is in the desired set. -/
theorem mem_after_one_pass {α : Type} [DecidableEq α] (current desired : List α) (x : α) :
    x ∈ apply_calls current (update_permissions_domain_calls current desired) ↔
      x ∈ desired := by
  rw [update_permissions_domain_calls, apply_calls, List.foldl_append]
  rw [show (List.foldl apply_call
      (List.foldl apply_call current ((added_of current desired).map DomainCall.grant))
      ((removed_of current desired).map DomainCall.revoke)) = apply_calls
      (apply_calls current ((added_of current desired).map DomainCall.grant))
      ((removed_of current desired).map DomainCall.revoke) from rfl]
  rw [mem_apply_revokes, mem_apply_grants, mem_added_of, mem_removed_of]
  by_cases hc : x ∈ current <;> by_cases hd : x ∈ desired <;> simp [hc, hd]

end BambooReconciler

/-- C2: if one reconciliation pass for a domain runs and every grant and
revoke call succeeds, a second pass against the resulting current state and
the unchanged desired state has empty ADDED and REMOVED sets and issues zero
grant or revoke calls to the Bamboo client. -/
theorem C2_second_run_is_empty {α : Type} [DecidableEq α]
    (current desired : List α) (_hc : current.Nodup) (_hd : desired.Nodup) :
    BambooReconciler.added_of
        (BambooReconciler.apply_calls current
          (BambooReconciler.update_permissions_domain_calls current desired)) desired = [] ∧
    BambooReconciler.removed_of
        (BambooReconciler.apply_calls current
          (BambooReconciler.update_permissions_domain_calls current desired)) desired = [] ∧
    BambooReconciler.update_permissions_domain_calls
        (BambooReconciler.apply_calls current
          (BambooReconciler.update_permissions_domain_calls current desired)) desired = [] := by
  have hmem := BambooReconciler.mem_after_one_pass current desired
  have hadd : BambooReconciler.added_of
      (BambooReconciler.apply_calls current
        (BambooReconciler.update_permissions_domain_calls current desired)) desired = [] := by
    rw [BambooReconciler.added_of_eq_filter]
    apply List.filter_eq_nil_iff.mpr
    intro a ha
    simp only [decide_eq_true_eq, Decidable.not_not]
    exact (hmem a).mpr ha
  have hrem : BambooReconciler.removed_of
      (BambooReconciler.apply_calls current
        (BambooReconciler.update_permissions_domain_calls current desired)) desired = [] := by
    rw [BambooReconciler.removed_of_eq_filter]
    apply List.filter_eq_nil_iff.mpr
    intro a ha
    simp only [decide_eq_true_eq, Decidable.not_not]
    exact (hmem a).mp ha
  refine ⟨hadd, hrem, ?_⟩
  rw [BambooReconciler.update_permissions_domain_calls, hadd, hrem]
  simp

/-- Witness for C2 at a concrete pair of duplicate-free record sets. -/
theorem C2_second_run_is_empty_witness :
    ([1, 2] : List Nat).Nodup ∧ ([2, 3] : List Nat).Nodup ∧
    (BambooReconciler.added_of
        (BambooReconciler.apply_calls [1, 2]
          (BambooReconciler.update_permissions_domain_calls [1, 2] [2, 3])) [2, 3] = [] ∧
      BambooReconciler.removed_of
        (BambooReconciler.apply_calls [1, 2]
          (BambooReconciler.update_permissions_domain_calls [1, 2] [2, 3])) [2, 3] = [] ∧
      BambooReconciler.update_permissions_domain_calls
        (BambooReconciler.apply_calls [1, 2]
          (BambooReconciler.update_permissions_domain_calls [1, 2] [2, 3])) [2, 3] = []) :=
  ⟨by decide, by decide, C2_second_run_is_empty [1, 2] [2, 3] (by decide) (by decide)⟩

namespace BambooReconciler

/-- A global-domain diff row as read by the apply loop of
`update_permissions`: line 209 passes `permission`, `type` and `name` to
`add_global_permission`. -/
structure GlobalRec where
  permission : String
  type : String
  name : String
deriving DecidableEq

/-- A build-plan-domain diff row as read by lines 211 and 223: `permission`,
`type`, `name`, `projectKey`, `planKey`. -/
structure BuildPlanRec where
  permission : String
  type : String
  name : String
  projectKey : String
  planKey : String
deriving DecidableEq

/-- A project-domain diff row as read by lines 213 and 225: `permission`,
`type`, `name`, `projectKey`. -/
structure ProjectRec where
  permission : String
  type : String
  name : String
  projectKey : String
deriving DecidableEq

/-- A deployment-domain diff row as read by lines 215 and 227: `permission`,
`type`, `name`. -/
structure DeploymentRec where
  permission : String
  type : String
  name : String
deriving DecidableEq

/-- A deployment-project-domain diff row as read by lines 217 and 229:
`permission`, `type`, `name`, `projectKey`. -/
structure DeploymentProjectRec where
  permission : String
  type : String
  name : String
  projectKey : String
deriving DecidableEq

/-- A deployment-environment-domain diff row as read by lines 219 and 231:
`permission`, `type`, `name`, `projectKey`, `environmentId`. -/
structure DeploymentEnvironmentRec where
  permission : String
  type : String
  name : String
  projectKey : String
  environmentId : String
deriving DecidableEq

/-- The six per-domain record sets handled by one reconciliation pass, in
the fixed source order global, build-plan, project, deployment,
deployment-project, deployment-environment. -/
structure PermissionsState where
  global_permissions : List GlobalRec
  build_plan_permissions : List BuildPlanRec
  project_permissions : List ProjectRec
  deployment_permissions : List DeploymentRec
  deployment_project_permissions : List DeploymentProjectRec
  deployment_environment_permissions : List DeploymentEnvironmentRec
deriving DecidableEq

/-- A call issued to the Bamboo client by `update_permissions`, one
constructor per client method used in lines 208-231. -/
inductive BambooCall where
  | add_global_permission (permission type name : String)
  | add_build_plan_permission (permission type name projectKey planKey : String)
  | add_project_permission (permission type name projectKey : String)
  | add_deployment_permission (permission type name : String)
  | add_deployment_project_permission (permission type name projectKey : String)
  | add_deployment_environment_permission
      (permission type name projectKey environmentId : String)
  | remove_global_permission (permission type name : String)
  | remove_build_plan_permission (permission type name projectKey planKey : String)
  | remove_project_permission (permission type name projectKey : String)
  | remove_deployment_permission (permission type name : String)
  | remove_deployment_project_permission (permission type name projectKey : String)
  | remove_deployment_environment_permission
      (permission type name projectKey environmentId : String)
deriving DecidableEq

/-- Whether a call is one of the six `add_*_permission` (grant) methods. -/
def isAddCall : BambooCall → Bool
  | BambooCall.add_global_permission _ _ _ => true
  | BambooCall.add_build_plan_permission _ _ _ _ _ => true
  | BambooCall.add_project_permission _ _ _ _ => true
  | BambooCall.add_deployment_permission _ _ _ => true
  | BambooCall.add_deployment_project_permission _ _ _ _ => true
  | BambooCall.add_deployment_environment_permission _ _ _ _ _ => true
  | _ => false

/-- Whether a call is one of the six `remove_*_permission` (revoke)
methods. -/
def isRemoveCall : BambooCall → Bool
  | BambooCall.remove_global_permission _ _ _ => true
  | BambooCall.remove_build_plan_permission _ _ _ _ _ => true
  | BambooCall.remove_project_permission _ _ _ _ => true
  | BambooCall.remove_deployment_permission _ _ _ => true
  | BambooCall.remove_deployment_project_permission _ _ _ _ => true
  | BambooCall.remove_deployment_environment_permission _ _ _ _ _ => true
  | _ => false

/-- The grant calls of one `update_permissions` pass: lines 208-219, the
ADDED rows of every domain in source order, each fed to the add method of
its domain. -/
def update_permissions_grants (cur des : PermissionsState) : List BambooCall :=
  (added_of cur.global_permissions des.global_permissions).map
      (fun r => BambooCall.add_global_permission r.permission r.type r.name)
    ++ (added_of cur.build_plan_permissions des.build_plan_permissions).map
      (fun r => BambooCall.add_build_plan_permission r.permission r.type r.name
        r.projectKey r.planKey)
    ++ (added_of cur.project_permissions des.project_permissions).map
      (fun r => BambooCall.add_project_permission r.permission r.type r.name r.projectKey)
    ++ (added_of cur.deployment_permissions des.deployment_permissions).map
      (fun r => BambooCall.add_deployment_permission r.permission r.type r.name)
    ++ (added_of cur.deployment_project_permissions des.deployment_project_permissions).map
      (fun r => BambooCall.add_deployment_project_permission r.permission r.type r.name
        r.projectKey)
    ++ (added_of cur.deployment_environment_permissions
        des.deployment_environment_permissions).map
      (fun r => BambooCall.add_deployment_environment_permission r.permission r.type
        r.name r.projectKey r.environmentId)

/-- The revoke calls of one `update_permissions` pass: lines 220-231, the
REMOVED rows of every domain in source order, each fed to the remove method
of its domain. -/
def update_permissions_revokes (cur des : PermissionsState) : List BambooCall :=
  (removed_of cur.global_permissions des.global_permissions).map
      (fun r => BambooCall.remove_global_permission r.permission r.type r.name)
    ++ (removed_of cur.build_plan_permissions des.build_plan_permissions).map
      (fun r => BambooCall.remove_build_plan_permission r.permission r.type r.name
        r.projectKey r.planKey)
    ++ (removed_of cur.project_permissions des.project_permissions).map
      (fun r => BambooCall.remove_project_permission r.permission r.type r.name r.projectKey)
    ++ (removed_of cur.deployment_permissions des.deployment_permissions).map
      (fun r => BambooCall.remove_deployment_permission r.permission r.type r.name)
    ++ (removed_of cur.deployment_project_permissions des.deployment_project_permissions).map
      (fun r => BambooCall.remove_deployment_project_permission r.permission r.type r.name
        r.projectKey)
    ++ (removed_of cur.deployment_environment_permissions
        des.deployment_environment_permissions).map
      (fun r => BambooCall.remove_deployment_environment_permission r.permission r.type
        r.name r.projectKey r.environmentId)

/-- The full call trace of `update_permissions` (lines 208-231): the grant
calls of all six domains first, then the revoke calls of all six domains. -/
def update_permissions (cur des : PermissionsState) : List BambooCall :=
  update_permissions_grants cur des ++ update_permissions_revokes cur des

theorem isAddCall_of_mem_grants (cur des : PermissionsState) :
    ∀ c ∈ update_permissions_grants cur des, isAddCall c = true := by
  intro c hc
  simp only [update_permissions_grants, List.mem_append, List.mem_map, or_assoc] at hc
  rcases hc with h | h | h | h | h | h <;> obtain ⟨r, -, rfl⟩ := h <;> rfl

theorem not_isAddCall_of_mem_revokes (cur des : PermissionsState) :
    ∀ c ∈ update_permissions_revokes cur des, isAddCall c = false := by
  intro c hc
  simp only [update_permissions_revokes, List.mem_append, List.mem_map, or_assoc] at hc
  rcases hc with h | h | h | h | h | h <;> obtain ⟨r, -, rfl⟩ := h <;> rfl

theorem isAddCall_false_of_isRemoveCall (c : BambooCall)
    (h : isRemoveCall c = true) : isAddCall c = false := by
  cases c <;> simp_all [isAddCall, isRemoveCall]

end BambooReconciler

/-- C3: within every domain, one `update_permissions` pass issues every
grant call for an ADDED record before any revoke call for a REMOVED record:
any add call sits at a strictly smaller position of the call trace than any
remove call. In particular, a grant and a revoke targeting the same subject
in one pass happen grant-first. -/
theorem C3_grants_issued_before_revokes
    (cur des : BambooReconciler.PermissionsState) (i j : Nat)
    (hi : i < (BambooReconciler.update_permissions cur des).length)
    (hj : j < (BambooReconciler.update_permissions cur des).length)
    (ha : BambooReconciler.isAddCall
      ((BambooReconciler.update_permissions cur des).get ⟨i, hi⟩) = true)
    (hr : BambooReconciler.isRemoveCall
      ((BambooReconciler.update_permissions cur des).get ⟨j, hj⟩) = true) :
    i < j := by
  have hsplit : BambooReconciler.update_permissions cur des =
      BambooReconciler.update_permissions_grants cur des
        ++ BambooReconciler.update_permissions_revokes cur des := rfl
  have hlen : (BambooReconciler.update_permissions cur des).length =
      (BambooReconciler.update_permissions_grants cur des).length
        + (BambooReconciler.update_permissions_revokes cur des).length := by
    rw [hsplit, List.length_append]
  have hiG : i < (BambooReconciler.update_permissions_grants cur des).length := by
    by_contra hcon
    push_neg at hcon
    have hib : i - (BambooReconciler.update_permissions_grants cur des).length <
        (BambooReconciler.update_permissions_revokes cur des).length := by
      omega
    have hgetR : (BambooReconciler.update_permissions cur des).get ⟨i, hi⟩ =
        (BambooReconciler.update_permissions_revokes cur des).get
          ⟨i - (BambooReconciler.update_permissions_grants cur des).length, hib⟩ := by
      simp only [List.get_eq_getElem]
      exact List.getElem_append_right hcon
    have hmem : (BambooReconciler.update_permissions_revokes cur des).get
        ⟨i - (BambooReconciler.update_permissions_grants cur des).length, hib⟩ ∈
        BambooReconciler.update_permissions_revokes cur des := by
      simp only [List.get_eq_getElem]
      exact List.getElem_mem hib
    have := BambooReconciler.not_isAddCall_of_mem_revokes cur des _ hmem
    rw [hgetR] at ha
    rw [ha] at this
    exact absurd this (by simp)
  have hjG : (BambooReconciler.update_permissions_grants cur des).length ≤ j := by
    by_contra hcon
    push_neg at hcon
    have hgetG : (BambooReconciler.update_permissions cur des).get ⟨j, hj⟩ =
        (BambooReconciler.update_permissions_grants cur des).get ⟨j, hcon⟩ := by
      simp only [List.get_eq_getElem]
      exact List.getElem_append_left hcon
    have hmem : (BambooReconciler.update_permissions_grants cur des).get ⟨j, hcon⟩ ∈
        BambooReconciler.update_permissions_grants cur des := by
      simp only [List.get_eq_getElem]
      exact List.getElem_mem hcon
    have hisadd := BambooReconciler.isAddCall_of_mem_grants cur des _ hmem
    have hnotadd := BambooReconciler.isAddCall_false_of_isRemoveCall _
      (by rw [hgetG] at hr; exact hr)
    rw [hisadd] at hnotadd
    exact absurd hnotadd (by simp)
  omega

namespace BambooReconciler

/-- Scenario C current state: jdoe holds the global EDIT permission. -/
def scenarioC_current : PermissionsState :=
  ⟨[⟨"EDIT", "user", "jdoe"⟩], [], [], [], [], []⟩

/-- Scenario C desired state: jdoe should hold the global VIEW permission
instead. -/
def scenarioC_desired : PermissionsState :=
  ⟨[⟨"VIEW", "user", "jdoe"⟩], [], [], [], [], []⟩

end BambooReconciler

/-- Witness for C3 at Scenario C: the grant of VIEW to jdoe is issued before
the revoke of EDIT from jdoe. -/
theorem C3_grants_issued_before_revokes_witness :
    BambooReconciler.isAddCall
      ((BambooReconciler.update_permissions BambooReconciler.scenarioC_current
        BambooReconciler.scenarioC_desired).get ⟨0, by decide⟩) = true ∧
    BambooReconciler.isRemoveCall
      ((BambooReconciler.update_permissions BambooReconciler.scenarioC_current
        BambooReconciler.scenarioC_desired).get ⟨1, by decide⟩) = true ∧
    0 < 1 :=
  ⟨by decide, by decide,
    C3_grants_issued_before_revokes BambooReconciler.scenarioC_current
      BambooReconciler.scenarioC_desired 0 1 (by decide) (by decide) (by decide) (by decide)⟩

namespace BambooReconciler

/-- Running the apply loops of `update_permissions` (lines 208-231) against
a client whose calls can raise: the loops hold no `try`/`except`, so the
calls run in trace order until the first call rejected by `ok` raises, which
aborts `update_permissions`. Returns the calls actually attempted (the
failing call itself is attempted; everything after it is not). -/
def attempted_calls (ok : BambooCall → Bool) : List BambooCall → List BambooCall
  | [] => []
  | c :: cs => if ok c then c :: attempted_calls ok cs else [c]

/-- The calls one `update_permissions` pass actually attempts when the
client fails exactly on the calls rejected by `ok`. -/
def update_permissions_attempted (cur des : PermissionsState)
    (ok : BambooCall → Bool) : List BambooCall :=
  attempted_calls ok (update_permissions cur des)

theorem attempted_calls_of_split (ok : BambooCall → Bool)
    (pre post : List BambooCall) (c : BambooCall)
    (hpre : ∀ x ∈ pre, ok x = true) (hc : ok c = false) :
    attempted_calls ok (pre ++ c :: post) = pre ++ [c] := by
  induction pre with
  | nil => simp [attempted_calls, hc]
  | cons a t ih =>
    have ha : ok a = true := hpre a (List.mem_cons_self a t)
    simp only [List.cons_append, attempted_calls, ha, if_true, List.append_eq]
    rw [ih (fun x hx => hpre x (List.mem_cons_of_mem a hx))]

/-- C6 counterexample current state: jdoe holds no global permission. -/
def c6_current : PermissionsState := ⟨[], [], [], [], [], []⟩

/-- C6 counterexample desired state: jdoe should hold global VIEW and
BUILD. -/
def c6_desired : PermissionsState :=
  ⟨[⟨"VIEW", "user", "jdoe"⟩, ⟨"BUILD", "user", "jdoe"⟩], [], [], [], [], []⟩

/-- C6 counterexample client behaviour: the grant of VIEW to jdoe raises,
every other call succeeds. -/
def c6_ok : BambooCall → Bool :=
  fun c => decide (c ≠ BambooCall.add_global_permission "VIEW" "user" "jdoe")

end BambooReconciler

/-- C6 counterexample: with two records to grant in the global domain, the
first grant call failing keeps the second grant call from ever being
attempted — the loop has no per-record error isolation, refuting the claim
that remaining calls of the batch are still attempted. -/
theorem C6_counterexample_first_failure_stops_batch :
    BambooReconciler.update_permissions BambooReconciler.c6_current
        BambooReconciler.c6_desired =
      [BambooReconciler.BambooCall.add_global_permission "VIEW" "user" "jdoe",
       BambooReconciler.BambooCall.add_global_permission "BUILD" "user" "jdoe"] ∧
    BambooReconciler.update_permissions_attempted BambooReconciler.c6_current
        BambooReconciler.c6_desired BambooReconciler.c6_ok =
      [BambooReconciler.BambooCall.add_global_permission "VIEW" "user" "jdoe"] ∧
    BambooReconciler.BambooCall.add_global_permission "BUILD" "user" "jdoe" ∉
      BambooReconciler.update_permissions_attempted BambooReconciler.c6_current
        BambooReconciler.c6_desired BambooReconciler.c6_ok := by
  refine ⟨by decide, by decide, by decide⟩

/-- C6 amended: an individual grant or revoke call failure aborts
`update_permissions` at once: if the calls before position k all succeed and
the call at position k fails, exactly the first k+1 calls of the trace are
attempted and every later call of the batch is skipped. -/
theorem C6_amended_failure_aborts_batch
    (cur des : BambooReconciler.PermissionsState)
    (ok : BambooReconciler.BambooCall → Bool)
    (pre post : List BambooReconciler.BambooCall) (c : BambooReconciler.BambooCall)
    (hsplit : BambooReconciler.update_permissions cur des = pre ++ c :: post)
    (hpre : ∀ x ∈ pre, ok x = true) (hc : ok c = false) :
    BambooReconciler.update_permissions_attempted cur des ok = pre ++ [c] := by
  rw [BambooReconciler.update_permissions_attempted, hsplit]
  exact BambooReconciler.attempted_calls_of_split ok pre post c hpre hc

/-- Witness for the amended C6 at the concrete two-grant batch: the failing
first call is attempted, the second is not. -/
theorem C6_amended_failure_aborts_batch_witness :
    BambooReconciler.update_permissions_attempted BambooReconciler.c6_current
        BambooReconciler.c6_desired BambooReconciler.c6_ok =
      [] ++ [BambooReconciler.BambooCall.add_global_permission "VIEW" "user" "jdoe"] :=
  C6_amended_failure_aborts_batch BambooReconciler.c6_current BambooReconciler.c6_desired
    BambooReconciler.c6_ok []
    [BambooReconciler.BambooCall.add_global_permission "BUILD" "user" "jdoe"]
    (BambooReconciler.BambooCall.add_global_permission "VIEW" "user" "jdoe")
    (by decide) (by intro x hx; cases hx) (by decide)

namespace BambooReconciler

/-- Outcomes of the six client fetch calls made by
`BambooAccess.get_all_permissions` (main.py lines 105-116): each call either
returns the record list of its domain or raises. -/
structure FetchOutcomes where
  global_permissions_fetch : Except String (List GlobalRec)
  build_plan_permissions_fetch : Except String (List BuildPlanRec)
  project_permissions_fetch : Except String (List ProjectRec)
  deployment_permissions_fetch : Except String (List DeploymentRec)
  deployment_project_permissions_fetch : Except String (List DeploymentProjectRec)
  deployment_environment_permissions_fetch : Except String (List DeploymentEnvironmentRec)

/-- `BambooAccess.get_all_permissions` (main.py lines 105-116): the six
fetches run in sequence with no `try`/`except` anywhere on the path through
`get_current_permissions`, so the first raised fetch exception propagates
and no later domain is fetched. -/
def get_all_permissions (f : FetchOutcomes) : Except String PermissionsState :=
  f.global_permissions_fetch.bind fun g =>
  f.build_plan_permissions_fetch.bind fun bp =>
  f.project_permissions_fetch.bind fun p =>
  f.deployment_permissions_fetch.bind fun d =>
  f.deployment_project_permissions_fetch.bind fun dp =>
  f.deployment_environment_permissions_fetch.bind fun de =>
  Except.ok ⟨g, bp, p, d, dp, de⟩

/-- `BambooAccessReconciler.update_permissions` run end to end from the
fetch outcomes and a parsed desired state: fetch the current state of all
six domains (lines 45-52 via main.py), then diff and issue the grant and
revoke calls. A fetch exception propagates and no call is issued. -/
def update_permissions_run (f : FetchOutcomes) (des : PermissionsState) :
    Except String (List BambooCall) :=
  (get_all_permissions f).bind fun cur => Except.ok (update_permissions cur des)

/-- C4 counterexample fetch outcomes: the deployment-domain fetch raises,
all five other domains fetch fine. -/
def c4_fetch : FetchOutcomes :=
  ⟨Except.ok [⟨"ADMINISTER", "user", "admin"⟩], Except.ok [], Except.ok [],
    Except.error "FetchError deployment", Except.ok [], Except.ok []⟩

/-- C4 counterexample desired state: admin keeps global ADMINISTER. -/
def c4_desired : PermissionsState :=
  ⟨[⟨"ADMINISTER", "user", "admin"⟩], [], [], [], [], []⟩

end BambooReconciler

/-- C4 counterexample: with the deployment fetch failing and all five other
domains fetching fine, the whole run fails with the fetch error and zero
domains are reconciled — no skip of the failed domain, no completed diff for
the other five, refuting the partial-failure claim. -/
theorem C4_counterexample_one_fetch_failure_aborts_all :
    BambooReconciler.c4_fetch.global_permissions_fetch =
      Except.ok [⟨"ADMINISTER", "user", "admin"⟩] ∧
    BambooReconciler.c4_fetch.deployment_permissions_fetch =
      Except.error "FetchError deployment" ∧
    BambooReconciler.update_permissions_run BambooReconciler.c4_fetch
        BambooReconciler.c4_desired =
      Except.error "FetchError deployment" := by
  refine ⟨rfl, rfl, rfl⟩

/-- C4 amended: a current-state retrieval failure for any of the six
domains aborts the entire reconciliation run: the six fetches are sequenced
with no error handling, so the run never reaches the diff or apply phase of
any domain and issues no call. -/
theorem C4_amended_fetch_failure_aborts_run
    (f : BambooReconciler.FetchOutcomes) (des : BambooReconciler.PermissionsState)
    (h : f.global_permissions_fetch.isOk = false ∨
      f.build_plan_permissions_fetch.isOk = false ∨
      f.project_permissions_fetch.isOk = false ∨
      f.deployment_permissions_fetch.isOk = false ∨
      f.deployment_project_permissions_fetch.isOk = false ∨
      f.deployment_environment_permissions_fetch.isOk = false) :
    (BambooReconciler.update_permissions_run f des).isOk = false := by
  simp only [BambooReconciler.update_permissions_run, BambooReconciler.get_all_permissions]
  cases hg : f.global_permissions_fetch with
  | error e1 => simp [Except.bind, Except.isOk, Except.toBool]
  | ok g =>
    cases hbp : f.build_plan_permissions_fetch with
    | error e2 => simp [Except.bind, Except.isOk, Except.toBool]
    | ok bp =>
      cases hp : f.project_permissions_fetch with
      | error e3 => simp [Except.bind, Except.isOk, Except.toBool]
      | ok p =>
        cases hd : f.deployment_permissions_fetch with
        | error e4 => simp [Except.bind, Except.isOk, Except.toBool]
        | ok d =>
          cases hdp : f.deployment_project_permissions_fetch with
          | error e5 => simp [Except.bind, Except.isOk, Except.toBool]
          | ok dp =>
            cases hde : f.deployment_environment_permissions_fetch with
            | error e6 => simp [Except.bind, Except.isOk, Except.toBool]
            | ok de =>
              rw [hg, hbp, hp, hd, hdp, hde] at h
              simp [Except.isOk, Except.toBool] at h

/-- Witness for the amended C4 at the concrete fetch outcomes with only the
deployment fetch failing. -/
theorem C4_amended_fetch_failure_aborts_run_witness :
    BambooReconciler.c4_fetch.deployment_permissions_fetch =
      Except.error "FetchError deployment" ∧
    (BambooReconciler.update_permissions_run BambooReconciler.c4_fetch
      BambooReconciler.c4_desired).isOk = false :=
  ⟨rfl, C4_amended_fetch_failure_aborts_run BambooReconciler.c4_fetch
    BambooReconciler.c4_desired (Or.inr (Or.inr (Or.inr (Or.inl rfl))))⟩

namespace BambooReconciler

/-- Grant/revoke calls issued by `write_permissions_diff_df_yaml`
(lines 155-170): it computes the diff via `get_permissions_diff_df_yaml`
and writes it out, issuing no grant or revoke call. A fetch exception still
propagates. -/
def write_permissions_diff_df_yaml_calls (f : FetchOutcomes)
    (_des : PermissionsState) : Except String (List BambooCall) :=
  (get_all_permissions f).bind fun _ => Except.ok ([] : List BambooCall)

/-- Grant/revoke calls issued by `write_permissions_diff_df_yaml_added`
(lines 234-249): line 240 obtains the data to report by calling
`self.update_permissions()`, so writing the added-diff report re-runs the
whole fetch-diff-apply pipeline. -/
def write_permissions_diff_df_yaml_added_calls (f : FetchOutcomes)
    (des : PermissionsState) : Except String (List BambooCall) :=
  update_permissions_run f des

/-- Grant/revoke calls issued by `write_permissions_diff_df_yaml_removed`
(lines 251-266): line 257 likewise calls `self.update_permissions()`. -/
def write_permissions_diff_df_yaml_removed_calls (f : FetchOutcomes)
    (des : PermissionsState) : Except String (List BambooCall) :=
  update_permissions_run f des

/-- Grant/revoke calls issued by the `__main__` block (lines 278-281): write
the diff report, then the added report, then the removed report, in that
order, concatenating every call issued. -/
def main_calls (f : FetchOutcomes) (des : PermissionsState) :
    Except String (List BambooCall) :=
  (write_permissions_diff_df_yaml_calls f des).bind fun c1 =>
  (write_permissions_diff_df_yaml_added_calls f des).bind fun c2 =>
  (write_permissions_diff_df_yaml_removed_calls f des).bind fun c3 =>
  Except.ok (c1 ++ c2 ++ c3)

/-- C10 witness fetch outcomes: every domain fetches fine; jdoe currently
holds global EDIT. -/
def c10_fetch : FetchOutcomes :=
  ⟨Except.ok [⟨"EDIT", "user", "jdoe"⟩], Except.ok [], Except.ok [],
    Except.ok [], Except.ok [], Except.ok []⟩

end BambooReconciler

/-- C10: the added-diff and removed-diff report writers are not read-only:
each one invokes `update_permissions`, so each report write re-runs the
fetch-diff-apply pipeline and issues the grant/revoke calls of the diff
again, and the `__main__` program therefore issues the whole call trace of
the diff exactly twice. -/
theorem C10_report_writers_reapply_diff
    (f : BambooReconciler.FetchOutcomes) (des cur : BambooReconciler.PermissionsState)
    (h : BambooReconciler.get_all_permissions f = Except.ok cur) :
    BambooReconciler.write_permissions_diff_df_yaml_added_calls f des =
      Except.ok (BambooReconciler.update_permissions cur des) ∧
    BambooReconciler.write_permissions_diff_df_yaml_removed_calls f des =
      Except.ok (BambooReconciler.update_permissions cur des) ∧
    BambooReconciler.main_calls f des =
      Except.ok (BambooReconciler.update_permissions cur des
        ++ BambooReconciler.update_permissions cur des) := by
  have hrun : BambooReconciler.update_permissions_run f des =
      Except.ok (BambooReconciler.update_permissions cur des) := by
    simp [BambooReconciler.update_permissions_run, h, Except.bind]
  refine ⟨hrun, hrun, ?_⟩
  simp [BambooReconciler.main_calls, BambooReconciler.write_permissions_diff_df_yaml_calls,
    BambooReconciler.write_permissions_diff_df_yaml_added_calls,
    BambooReconciler.write_permissions_diff_df_yaml_removed_calls, hrun, h, Except.bind]

/-- Witness for C10 at concrete fetch outcomes and desired state: the main
program issues the grant of VIEW and the revoke of EDIT twice over. -/
theorem C10_report_writers_reapply_diff_witness :
    BambooReconciler.get_all_permissions BambooReconciler.c10_fetch =
      Except.ok BambooReconciler.scenarioC_current ∧
    (BambooReconciler.write_permissions_diff_df_yaml_added_calls
        BambooReconciler.c10_fetch BambooReconciler.scenarioC_desired =
      Except.ok (BambooReconciler.update_permissions BambooReconciler.scenarioC_current
        BambooReconciler.scenarioC_desired) ∧
    BambooReconciler.write_permissions_diff_df_yaml_removed_calls
        BambooReconciler.c10_fetch BambooReconciler.scenarioC_desired =
      Except.ok (BambooReconciler.update_permissions BambooReconciler.scenarioC_current
        BambooReconciler.scenarioC_desired) ∧
    BambooReconciler.main_calls BambooReconciler.c10_fetch
        BambooReconciler.scenarioC_desired =
      Except.ok (BambooReconciler.update_permissions BambooReconciler.scenarioC_current
          BambooReconciler.scenarioC_desired
        ++ BambooReconciler.update_permissions BambooReconciler.scenarioC_current
          BambooReconciler.scenarioC_desired)) :=
  ⟨rfl, C10_report_writers_reapply_diff BambooReconciler.c10_fetch
    BambooReconciler.scenarioC_desired BambooReconciler.scenarioC_current rfl⟩

namespace BambooReconciler

/-- A subject entry of the desired-permissions YAML document: a user or
group name together with the list of permission names granted to it. -/
structure SubjectEntry where
  name : String
  permissions : List String
deriving DecidableEq

/-- A scope entry of the desired-permissions document for the five scoped
domains: a scope name (plan, project, deployment, ...) holding a nested list
of subject entries. -/
structure ScopeEntry where
  name : String
  permissions : List SubjectEntry
deriving DecidableEq

/-- The parsed desired-permissions document, with the six top-level domain
keys of the YAML layout documented at the bottom of
`bamboo_access_reconciler.py`. -/
structure DesiredDoc where
  global_permissions : List SubjectEntry
  build_plan_permissions : List ScopeEntry
  project_permissions : List ScopeEntry
  deployment_permissions : List ScopeEntry
  deployment_project_permissions : List ScopeEntry
  deployment_environment_permissions : List ScopeEntry
deriving DecidableEq

/-- An exception propagating out of `get_desired_permissions`:
either the YAML parse error itself or the `UnboundLocalError` raised by
returning a never-assigned variable. -/
inductive LoaderError where
  | yamlError (msg : String)
  | unboundLocalError
deriving DecidableEq

/-- `get_desired_permissions` (lines 54-64): `yaml.safe_load` either returns
the parsed document or raises `yaml.YAMLError`. The `except` clause catches
the `YAMLError` and only prints it; control then reaches
`return desired_permissions_df_yaml` with that variable never assigned,
which raises `UnboundLocalError`. The parse error is therefore recovered,
never propagated. -/
def get_desired_permissions (parse_result : Except String DesiredDoc) :
    Except LoaderError DesiredDoc :=
  match parse_result with
  | Except.ok doc => Except.ok doc
  | Except.error _ => Except.error LoaderError.unboundLocalError

/-- C8 failing input: one global subject entry listing two permissions. -/
def c8_doc : DesiredDoc :=
  ⟨[⟨"admin", ["ADMINISTER", "BUILD"]⟩], [], [], [], [], []⟩

/-- The per-domain desired-permission frames that
`get_desired_permissions_df` (lines 86-104) builds: each frame is a bare
`pd.DataFrame` over the list stored under the domain key, which yields one
row per list element with the mapping keys as columns. The global frame has
one row per subject entry, carrying the whole `permissions` list in a single
cell; each scoped frame has one row per scope entry. No expansion into one
record per permission, and no `value` column, is produced. -/
structure DesiredFrames where
  global_permissions_df : List SubjectEntry
  build_plan_permissions_df : List ScopeEntry
  project_permissions_df : List ScopeEntry
  deployment_permissions_df : List ScopeEntry
  deployment_project_permissions_df : List ScopeEntry
  deployment_environment_permissions_df : List ScopeEntry
deriving DecidableEq

/-- `get_desired_permissions_df` (lines 86-104): slice the parsed document
by domain key and build one frame per domain with `pd.DataFrame`, leaving
every entry as a single row. -/
def get_desired_permissions_df (doc : DesiredDoc) : DesiredFrames :=
  ⟨doc.global_permissions, doc.build_plan_permissions, doc.project_permissions,
    doc.deployment_permissions, doc.deployment_project_permissions,
    doc.deployment_environment_permissions⟩

end BambooReconciler

/-- C5 counterexample: on an unparseable document the loader does not
propagate the parse error: `yaml.YAMLError` is caught and printed, and
`get_desired_permissions` instead raises `UnboundLocalError` from returning
the never-assigned result variable. -/
theorem C5_counterexample_parse_error_is_recovered :
    BambooReconciler.get_desired_permissions (Except.error "bad yaml") =
      Except.error BambooReconciler.LoaderError.unboundLocalError ∧
    BambooReconciler.get_desired_permissions (Except.error "bad yaml") ≠
      Except.error (BambooReconciler.LoaderError.yamlError "bad yaml") := by
  refine ⟨rfl, by simp [BambooReconciler.get_desired_permissions]⟩

/-- C5 amended: on any unparseable desired-state document the parse error is
caught and printed, and loading then fails with `UnboundLocalError` — still
fatal to the run, but the propagated exception is the unrelated unbound
variable error, not the parse error. -/
theorem C5_amended_loader_fails_with_unbound_local
    (parse_result : Except String BambooReconciler.DesiredDoc) (msg : String)
    (h : parse_result = Except.error msg) :
    BambooReconciler.get_desired_permissions parse_result =
      Except.error BambooReconciler.LoaderError.unboundLocalError := by
  rw [h]
  rfl

/-- Witness for the amended C5 at a concrete malformed document. -/
theorem C5_amended_loader_fails_with_unbound_local_witness :
    BambooReconciler.get_desired_permissions
        (Except.error "mapping values are not allowed here") =
      Except.error BambooReconciler.LoaderError.unboundLocalError :=
  C5_amended_loader_fails_with_unbound_local
    (Except.error "mapping values are not allowed here")
    "mapping values are not allowed here" rfl

/-- C8 (code bug): the desired-state loader performs no expansion: a global
subject entry listing two permissions is loaded as a single frame row
carrying the whole permission list (with no value field), not as two
Permission Records with value true — although `update_permissions` reads a
scalar `permission` key from every diff row, and the tests of the repository
expect one row per permission with a `value` column. -/
theorem C8_loader_does_not_expand_permissions :
    (BambooReconciler.get_desired_permissions_df
        BambooReconciler.c8_doc).global_permissions_df =
      [⟨"admin", ["ADMINISTER", "BUILD"]⟩] ∧
    (BambooReconciler.get_desired_permissions_df
        BambooReconciler.c8_doc).global_permissions_df.length = 1 ∧
    (1 : Nat) ≠ 2 := by
  refine ⟨rfl, rfl, by decide⟩

namespace BambooReconciler

/-- A fetched global-permissions row with the columns the tests of the
repository assert for the current frames
(`test_bamboo_access_reconciler.py` lines 14-26): `user`, `group`,
`permission`, `value`. An outer merge of two frames of this shape with no
join keys given joins on all four common columns, `value` included. -/
structure GlobalPermissionRow where
  user : Option String
  group : Option String
  permission : String
  value : Bool
deriving DecidableEq

/-- C7 counterexample current row: admin holds ADMINISTER with value
true. -/
def c7_current : List GlobalPermissionRow :=
  [⟨some "admin", none, "ADMINISTER", true⟩]

/-- C7 counterexample desired row: identical identity and permission, value
false. -/
def c7_desired : List GlobalPermissionRow :=
  [⟨some "admin", none, "ADMINISTER", false⟩]

/-- `BambooAccess.get_all_permissions_df` for the global domain (main.py
lines 118-130): a bare `pd.DataFrame(...)` over the record mappings the
client returned builds the current frame; every record passes through
unchanged and no validation of any kind runs. -/
def get_all_permissions_df_global (raw : List GlobalPermissionRow) :
    List GlobalPermissionRow :=
  raw

/-- C9 counterexample record: both `user` and `group` populated. -/
def c9_row : GlobalPermissionRow :=
  ⟨some "admin", some "group1", "ADMINISTER", true⟩

end BambooReconciler

/-- C7 counterexample: two records agreeing on identity and permission but
differing in `value` are not classified as unchanged: the outer merge joins
on all common columns, so the `value` field is part of the comparison key
and the pair lands in removed and added instead. -/
theorem C7_counterexample_value_is_part_of_key :
    BambooReconciler.unchanged_of BambooReconciler.c7_current
      BambooReconciler.c7_desired = [] ∧
    BambooReconciler.removed_of BambooReconciler.c7_current
      BambooReconciler.c7_desired = BambooReconciler.c7_current ∧
    BambooReconciler.added_of BambooReconciler.c7_current
      BambooReconciler.c7_desired = BambooReconciler.c7_desired := by
  refine ⟨by decide, by decide, by decide⟩

/-- C7 amended: the `value` field is part of the record comparison key (the
outer merge joins on all common columns); a current and a desired record
that agree on identity, permission and also on `value` — in particular any
two materialized records, which always carry `value` true — are classified
as unchanged. -/
theorem C7_amended_agreement_including_value_is_unchanged
    (current desired : List BambooReconciler.GlobalPermissionRow)
    (r rd : BambooReconciler.GlobalPermissionRow)
    (hr : r ∈ current) (hrd : rd ∈ desired)
    (hu : r.user = rd.user) (hg : r.group = rd.group)
    (hp : r.permission = rd.permission) (hv : r.value = rd.value) :
    r ∈ BambooReconciler.unchanged_of current desired := by
  have heq : r = rd := by
    cases r
    cases rd
    simp_all
  rw [BambooReconciler.mem_unchanged_of]
  exact ⟨hr, heq ▸ hrd⟩

/-- Witness for the amended C7 at a concrete pair of rows agreeing on every
column including value. -/
theorem C7_amended_agreement_including_value_is_unchanged_witness :
    (⟨some "admin", none, "ADMINISTER", true⟩ :
        BambooReconciler.GlobalPermissionRow) ∈
      BambooReconciler.unchanged_of
        [(⟨some "admin", none, "ADMINISTER", true⟩ :
          BambooReconciler.GlobalPermissionRow)]
        [(⟨some "admin", none, "ADMINISTER", true⟩ :
          BambooReconciler.GlobalPermissionRow)] :=
  C7_amended_agreement_including_value_is_unchanged
    [⟨some "admin", none, "ADMINISTER", true⟩]
    [⟨some "admin", none, "ADMINISTER", true⟩]
    ⟨some "admin", none, "ADMINISTER", true⟩
    ⟨some "admin", none, "ADMINISTER", true⟩
    (List.mem_singleton.mpr rfl) (List.mem_singleton.mpr rfl) rfl rfl rfl rfl

/-- C9 counterexample: the fetcher normalization accepts a record with both
`user` and `group` populated: the record passes through `pd.DataFrame`
construction unchanged and nothing fails — no schema validation of the
mutual-exclusivity invariant exists. -/
theorem C9_counterexample_no_mutual_exclusivity_validation :
    BambooReconciler.c9_row ∈
      BambooReconciler.get_all_permissions_df_global [BambooReconciler.c9_row] ∧
    (BambooReconciler.c9_row.user).isSome = true ∧
    (BambooReconciler.c9_row.group).isSome = true ∧
    (BambooReconciler.get_all_permissions_df_global
      [BambooReconciler.c9_row]).length = 1 := by
  refine ⟨by decide, rfl, rfl, rfl⟩

/-- C9 amended: no schema validation exists anywhere on the pipeline: the
fetcher passes every record through unchanged, so a record with both (or
neither) of `user`/`group` populated is accepted and participates in the
diff like any other record — here, absent from desired, it is classified
REMOVED rather than rejected. -/
theorem C9_amended_invalid_records_flow_into_diff
    (raw desired : List BambooReconciler.GlobalPermissionRow)
    (r : BambooReconciler.GlobalPermissionRow)
    (hr : r ∈ raw) (hd : r ∉ desired) :
    r ∈ BambooReconciler.removed_of
      (BambooReconciler.get_all_permissions_df_global raw) desired := by
  rw [BambooReconciler.mem_removed_of]
  exact ⟨hr, hd⟩

/-- Witness for the amended C9 at the concrete both-populated record. -/
theorem C9_amended_invalid_records_flow_into_diff_witness :
    BambooReconciler.c9_row ∈
      BambooReconciler.removed_of
        (BambooReconciler.get_all_permissions_df_global [BambooReconciler.c9_row]) [] :=
  C9_amended_invalid_records_flow_into_diff [BambooReconciler.c9_row] []
    BambooReconciler.c9_row (List.mem_singleton.mpr rfl) (List.not_mem_nil _)
